import Mathlib

/-!
Shallow embedding of the Vaultify encryption core: the base64 envelope codec,
the PBKDF2/AES-GCM crypto service (`src/unnamed/part_008`, the crypto service
module), the constants module (`src/constants.ts`), and the vault session state
machine of `src/App.tsx` (load, PIN submit, save, delete, export).

Platform primitives (WebCrypto AES-GCM / PBKDF2, `btoa`/`atob`,
`TextEncoder`/`TextDecoder`, `localStorage`, JSON) are not part of the
repository; they are modelled from the spec, each with a doc comment saying so.
Randomness (`crypto.getRandomValues`) is modelled by an explicit entropy
counter threaded through a `World` record, and `localStorage` by an optional
stored value in the same record.
-/

namespace Vaultify

/-! ## Constants (src/constants.ts) -/

def LOCAL_STORAGE_KEY : String := "encryptedBookmarksData_v1"

def PBKDF2_ITERATIONS : Nat := 100000

def ENCRYPTION_ALGORITHM : String := "AES-GCM"

def KEY_DERIVATION_ALGORITHM : String := "PBKDF2"

def HASH_ALGORITHM : String := "SHA-256"

def KEY_LENGTH_BITS : Nat := 256

def SALT_LENGTH_BYTES : Nat := 16

def IV_LENGTH_BYTES : Nat := 12

/-! ## Text codec

`TextEncoder.encode` / `TextDecoder.decode` are platform primitives. -/

/-- Modelled from the spec: `new TextEncoder().encode(s)` — the injective,
invertible byte encoding of a text; code points stand in for the byte
sequence. -/
def textEncode (s : String) : List Nat := s.data.map Char.toNat

/-- Modelled from the spec: `new TextDecoder().decode(bytes)` — the inverse of
`textEncode` on its image. -/
def textDecode (bs : List Nat) : String := String.mk (bs.map Char.ofNat)

/-! ## Base64 (window.btoa / window.atob)

`btoa`/`atob` are platform primitives; they are modelled from the spec as the
standard base64 alphabet with `=` padding.  A sextet value in `0..63` is a
payload character; the value `64` stands for the padding character. -/

/-- Modelled from the spec: character code of the base64 alphabet for a sextet
value (`64` is the padding character `=`). -/
def b64CodeOfSextet (s : Nat) : Nat :=
  if s < 26 then 65 + s
  else if s < 52 then 71 + s
  else if s < 62 then s - 4
  else if s = 62 then 43
  else if s = 63 then 47
  else 61

/-- Modelled from the spec: sextet value of a base64 character code (`none`
for a character outside the alphabet). -/
def sextetOfB64Code (c : Nat) : Option Nat :=
  if 65 ≤ c ∧ c ≤ 90 then some (c - 65)
  else if 97 ≤ c ∧ c ≤ 122 then some (c - 71)
  else if 48 ≤ c ∧ c ≤ 57 then some (c + 4)
  else if c = 43 then some 62
  else if c = 47 then some 63
  else if c = 61 then some 64
  else none

/-- Modelled from the spec: the sextet stream of base64-encoding a byte
sequence, three bytes to four sextets, with `64` marking padding. -/
def b64EncodeBytes : List Nat → List Nat
  | [] => []
  | [a] => [a / 4, (a % 4) * 16, 64, 64]
  | [a, b] => [a / 4, (a % 4) * 16 + b / 16, (b % 16) * 4, 64]
  | a :: b :: c :: rest =>
      (a / 4) :: ((a % 4) * 16 + b / 16) :: ((b % 16) * 4 + c / 64) :: (c % 64) ::
        b64EncodeBytes rest

/-- Modelled from the spec: decoding a sextet stream back to bytes, strict
about padding placement and about zero trailing bits. -/
def b64DecodeSextets : List Nat → Option (List Nat)
  | [] => some []
  | w :: x :: y :: z :: rest =>
      if w < 64 ∧ x < 64 then
        if y = 64 then
          if z = 64 ∧ rest = [] ∧ x % 16 = 0 then some [w * 4 + x / 16] else none
        else if z = 64 then
          if y < 64 ∧ rest = [] ∧ y % 4 = 0 then
            some [w * 4 + x / 16, (x % 16) * 16 + y / 4]
          else none
        else
          if y < 64 ∧ z < 64 then
            (b64DecodeSextets rest).map
              (fun bs => (w * 4 + x / 16) :: ((x % 16) * 16 + y / 4) ::
                ((y % 4) * 64 + z) :: bs)
          else none
      else none
  | _ => none

/-- Modelled from the spec: `window.btoa` on a binary string given by its
character codes. -/
def btoa (bs : List Nat) : List Nat :=
  (b64EncodeBytes bs).map b64CodeOfSextet

/-- Maps base64 character codes to sextets, failing on the first character
outside the alphabet. -/
def b64CodesToSextets : List Nat → Option (List Nat)
  | [] => some []
  | c :: cs =>
      match sextetOfB64Code c, b64CodesToSextets cs with
      | some s, some ss => some (s :: ss)
      | _, _ => none

/-- Modelled from the spec: `window.atob`, failing (throwing) on text that is
not valid base64. -/
def atob (cs : List Nat) : Option (List Nat) :=
  (b64CodesToSextets cs).bind b64DecodeSextets

/-- `arrayBufferToBase64` from the crypto service: builds the binary string
whose character codes are the buffer's bytes (`String.fromCharCode` truncates
to a UTF-16 code unit, hence the `% 65536`) and applies `btoa`. -/
def arrayBufferToBase64 (buffer : List Nat) : List Nat :=
  btoa (buffer.map (fun b => b % 65536))

/-- `base64ToArrayBuffer` from the crypto service: applies `atob` and reads the
character codes of the binary string into a `Uint8Array` (which truncates each
code to a byte, hence the `% 256`); `none` models the `atob` throw on invalid
input. -/
def base64ToArrayBuffer (b64 : List Nat) : Option (List Nat) :=
  (atob b64).map (fun bin => bin.map (fun c => c % 256))

/-! ## Randomness (crypto.getRandomValues) -/

/-- Modelled from the spec: the byte sequence drawn from the entropy pool at
counter position `rng`; `generateSalt` in the crypto service fills
`SALT_LENGTH_BYTES` random bytes. -/
def generateSalt (rng : Nat) : List Nat :=
  (List.range SALT_LENGTH_BYTES).map (fun i => rng / 256 ^ i % 256)

/-- Modelled from the spec: `generateIv` in the crypto service fills
`IV_LENGTH_BYTES` random bytes from the entropy pool at counter position
`rng`. -/
def generateIv (rng : Nat) : List Nat :=
  (List.range IV_LENGTH_BYTES).map (fun i => rng / 256 ^ i % 256)

/-! ## WebCrypto model (subtle.importKey / deriveKey / encrypt / decrypt) -/

/-- The `CryptoKey` handle returned by `subtle.deriveKey`: symbolic key
material plus the algorithm parameters it was derived for. -/
structure CryptoKey where
  material : List Nat
  algorithm : String
  lengthBits : Nat
deriving DecidableEq, Repr

/-- Modelled from the spec: PBKDF2 — a deterministic function of the password,
salt, iteration count, hash function and output length; the symbolic key
material records exactly these inputs (the `password.length` prefix keeps the
password/salt split unambiguous). -/
def pbkdf2 (password salt : List Nat) (iterations : Nat) (hash : String)
    (dkLenBits : Nat) : List Nat :=
  iterations :: dkLenBits :: (hash.data.map Char.toNat) ++
    (password.length :: password) ++ salt

/-- `deriveKey` from the crypto service: imports the PIN bytes as PBKDF2 key
material and derives an AES-GCM key of `KEY_LENGTH_BITS` bits with
`PBKDF2_ITERATIONS` iterations of `HASH_ALGORITHM`. -/
def deriveKey (pin : String) (salt : List Nat) : CryptoKey :=
  let keyMaterial := textEncode pin
  { material := pbkdf2 keyMaterial salt PBKDF2_ITERATIONS HASH_ALGORITHM KEY_LENGTH_BITS
    algorithm := ENCRYPTION_ALGORITHM
    lengthBits := KEY_LENGTH_BITS }

/-- The opaque AES-GCM ciphertext buffer: symbolically, an authenticated
ciphertext binds the key, the nonce and the plaintext bytes. -/
structure AesGcmCiphertext where
  key : CryptoKey
  iv : List Nat
  plain : List Nat
deriving DecidableEq, Repr

/-- The error a failed `subtle.decrypt` rejects with (the GCM tag does not
verify). -/
inductive CryptoError where
  | AuthenticationError : CryptoError
deriving DecidableEq, Repr

/-- Modelled from the spec: `subtle.encrypt` with AES-GCM — authenticated
encryption of the plaintext bytes under the key and nonce. -/
def subtleEncrypt (key : CryptoKey) (iv : List Nat) (plain : List Nat) :
    AesGcmCiphertext :=
  { key := key, iv := iv, plain := plain }

/-- Modelled from the spec: `subtle.decrypt` with AES-GCM — returns the
plaintext exactly when the key and nonce are the ones the ciphertext was
produced under, and rejects with an authentication error otherwise. -/
def subtleDecrypt (key : CryptoKey) (iv : List Nat) (ct : AesGcmCiphertext) :
    Except CryptoError (List Nat) :=
  if ct.key = key ∧ ct.iv = iv then Except.ok ct.plain
  else Except.error CryptoError.AuthenticationError

/-- The `{ iv, ciphertext }` pair returned by `encryptData`. -/
structure EncryptResult where
  iv : List Nat
  ciphertext : AesGcmCiphertext
deriving DecidableEq, Repr

/-- `encryptData` from the crypto service: draws a fresh IV, UTF-8-encodes the
plaintext and encrypts it under the key. -/
def encryptData (key : CryptoKey) (data : String) (rng : Nat) : EncryptResult :=
  let iv := generateIv rng
  let encodedData := textEncode data
  let ciphertext := subtleEncrypt key iv encodedData
  { iv := iv, ciphertext := ciphertext }

/-- `decryptData` from the crypto service: authenticated decryption followed by
text decoding; propagates the authentication failure. -/
def decryptData (key : CryptoKey) (iv : List Nat) (ct : AesGcmCiphertext) :
    Except CryptoError String :=
  (subtleDecrypt key iv ct).map textDecode

/-! ## Bookmarks and their JSON serialization (src/types.ts, JSON.stringify) -/

/-- A bookmark record (`src/types.ts`); the session state machine treats the
fields as opaque payload, so the model keeps the identifying ones. -/
structure Bookmark where
  id : String
  name : String
  url : String
deriving DecidableEq, Repr

/-- Length-prefixed field used by the modelled JSON codec. -/
def encodeField (s : String) : String := toString s.length ++ ":" ++ s

/-- Modelled from the spec: `JSON.stringify` of the bookmark collection — an
injective serialization of the collection to a single text blob. -/
def stringifyBookmarks (bs : List Bookmark) : String :=
  String.join (bs.map (fun b => encodeField b.id ++ encodeField b.name ++ encodeField b.url))

/-- Reads a decimal number off the front of a character list. -/
def parseNatAux : List Char → Nat → Nat × List Char
  | [], acc => (acc, [])
  | c :: cs, acc =>
      if c.isDigit then parseNatAux cs (acc * 10 + (c.toNat - 48)) else (acc, c :: cs)

/-- Reads one length-prefixed field off the front of a character list. -/
def parseField (cs : List Char) : Option (String × List Char) :=
  let p := parseNatAux cs 0
  match p.2 with
  | ':' :: rest => if p.1 ≤ rest.length
      then some (String.mk (rest.take p.1), rest.drop p.1) else none
  | _ => none

/-- Fuel-bounded reader for a serialized bookmark collection. -/
def parseBookmarksAux : Nat → List Char → Option (List Bookmark)
  | _, [] => some []
  | 0, _ => none
  | fuel + 1, cs => do
      let f1 ← parseField cs
      let f2 ← parseField f1.2
      let f3 ← parseField f2.2
      let rest ← parseBookmarksAux fuel f3.2
      some ({ id := f1.1, name := f2.1, url := f3.1 } :: rest)

/-- Modelled from the spec: `JSON.parse` of a serialized bookmark collection —
the one-sided inverse of `stringifyBookmarks`, `none` on text it cannot read. -/
def parseBookmarks (s : String) : Option (List Bookmark) :=
  parseBookmarksAux s.data.length s.data

/-! ## The persisted envelope and the storage world -/

/-- The persisted envelope (`EncryptedData` in `src/types.ts`): `salt` and
`iv` are base64 texts held as character-code lists; the opaque ciphertext
buffer's base64 leg is modelled as the identity (the codec itself is verified
separately at the byte level), so the field holds the buffer. -/
structure EncryptedData where
  salt : List Nat
  iv : List Nat
  ciphertext : AesGcmCiphertext
deriving DecidableEq, Repr

/-- The text under `LOCAL_STORAGE_KEY`: either the JSON of an envelope or text
that does not parse as one. -/
inductive StoredText where
  | env : EncryptedData → StoredText
  | junk : String → StoredText
deriving DecidableEq, Repr

/-- Modelled from the spec: `JSON.parse` of the stored text — recovers the
envelope exactly when the text is the JSON of one. -/
def parseStoredText : StoredText → Option EncryptedData
  | StoredText.env e => some e
  | StoredText.junk _ => none

/-- The ambient world: the `localStorage` slot under `LOCAL_STORAGE_KEY`, the
entropy counter, and whether `localStorage.setItem` rejects (storage quota). -/
structure World where
  store : Option StoredText
  rng : Nat
  quotaFails : Bool
deriving DecidableEq, Repr

/-! ## Vault session state (src/App.tsx) -/

/-- The React state of `App`: the session state machine's variables.
`bookmarks` is the in-memory plaintext collection, `derivedKey` the in-memory
session key, `storedSalt` the salt read from (or generated for) the envelope,
`isInitialSetup` marks the Uninitialized state, `toast` the last user-facing
notice. -/
structure AppState where
  isAuthenticated : Bool
  bookmarks : List Bookmark
  derivedKey : Option CryptoKey
  storedSalt : Option (List Nat)
  pinError : Option String
  isInitialSetup : Bool
  toast : Option String
deriving DecidableEq, Repr

/-- Message set by the PIN catch branch outside initial setup. -/
def invalidPinMessage : String := "Invalid PIN or corrupted data. Check console."

/-- Message set by the PIN catch branch during initial setup. -/
def setupFailedMessage : String :=
  "Failed to initialize. Try a different PIN or check console."

/-- `pinError` set by `saveDataToLocalStorage` when persisting fails. -/
def saveFailedPinError : String := "Failed to save data. Check console for details."

/-- Toast set by `saveDataToLocalStorage` when persisting fails. -/
def saveFailedToast : String := "Failed to save data securely."

/-- Toast shown by `loadInitialData` when the stored text cannot be parsed. -/
def corruptedDataToast : String := "Corrupted data found, resetting application."

/-- Toast shown when export is refused. -/
def exportRefusedToast : String := "No data to export or not authenticated."

/-- Toast shown on successful export. -/
def exportSuccessToast : String := "Bookmarks exported successfully!"

/-- `pinError` set by mutators when the key or salt is missing. -/
def keyUnavailableMessage : String :=
  "Encryption key not available. Please re-authenticate."

/-- `loadInitialData` (App.tsx): reads the stored text; on success keeps the
decoded salt and leaves initial-setup off; when there is no stored text,
enters initial setup; when the text does not parse (or its salt is not valid
base64), removes the stored item, enters initial setup and shows the
corruption toast. -/
def loadInitialData (st : AppState) (w : World) : AppState × World :=
  match w.store with
  | some sv =>
      match parseStoredText sv with
      | some e =>
          match base64ToArrayBuffer e.salt with
          | some saltBytes =>
              ({ st with storedSalt := some saltBytes, isInitialSetup := false }, w)
          | none =>
              ({ st with isInitialSetup := true, toast := some corruptedDataToast },
               { w with store := none })
      | none =>
          ({ st with isInitialSetup := true, toast := some corruptedDataToast },
           { w with store := none })
  | none => ({ st with isInitialSetup := true }, w)

/-- Result of `saveDataToLocalStorage`: the updated React state, the updated
world, and whether the save succeeded (`false` models the thrown error). -/
structure SaveResult where
  st : AppState
  w : World
  ok : Bool
deriving DecidableEq, Repr

/-- `saveDataToLocalStorage` (App.tsx): serializes the collection, encrypts it
under the session key with a fresh IV, assembles the three-field envelope and
replaces the stored text with it in one `setItem`; on a storage failure sets
the save error notice and reports failure (the thrown error). -/
def saveDataToLocalStorage (key : CryptoKey) (salt : List Nat)
    (dataToSave : List Bookmark) (st : AppState) (w : World) : SaveResult :=
  let jsonData := stringifyBookmarks dataToSave
  let enc := encryptData key jsonData w.rng
  let w1 : World := { w with rng := w.rng + 1 }
  let encryptedPayload : EncryptedData :=
    { salt := arrayBufferToBase64 salt
      iv := arrayBufferToBase64 enc.iv
      ciphertext := enc.ciphertext }
  if w1.quotaFails then
    { st := { st with pinError := some saveFailedPinError, toast := some saveFailedToast }
      w := w1
      ok := false }
  else
    { st := st
      w := { w1 with store := some (StoredText.env encryptedPayload) }
      ok := true }

/-- The catch branch of `handlePinSubmit` outside initial setup. -/
def pinCatch (st : AppState) : AppState :=
  { st with pinError := some invalidPinMessage
            isAuthenticated := false
            derivedKey := none }

/-- `handlePinSubmit` (App.tsx): during initial setup, generates a salt,
derives the key, persists an empty collection and unlocks (or, if persisting
fails, keeps initial setup with the setup error and drops the key); otherwise
derives the key from the stored salt, reads, parses and decrypts the stored
envelope and unlocks, any failure landing in the catch branch that reports the
invalid-PIN error, clears the key and stays locked. -/
def handlePinSubmit (pin : String) (st0 : AppState) (w0 : World) :
    AppState × World :=
  let st := { st0 with pinError := none }
  if st.isInitialSetup then
    let newSalt := generateSalt w0.rng
    let w1 : World := { w0 with rng := w0.rng + 1 }
    let key := deriveKey pin newSalt
    let st1 := { st with derivedKey := some key
                         storedSalt := some newSalt
                         bookmarks := [] }
    let r := saveDataToLocalStorage key newSalt [] st1 w1
    if r.ok then
      ({ r.st with isAuthenticated := true
                   isInitialSetup := false
                   toast := some "Secure storage initialized!" }, r.w)
    else
      ({ r.st with pinError := some setupFailedMessage
                   isAuthenticated := false
                   derivedKey := none }, r.w)
  else
    match st.storedSalt with
    | some salt =>
        let key := deriveKey pin salt
        match w0.store with
        | none => (pinCatch st, w0)
        | some sv =>
            match parseStoredText sv with
            | none => (pinCatch st, w0)
            | some e =>
                match base64ToArrayBuffer e.iv with
                | none => (pinCatch st, w0)
                | some ivBytes =>
                    match decryptData key ivBytes e.ciphertext with
                    | Except.error _ => (pinCatch st, w0)
                    | Except.ok decryptedJson =>
                        match parseBookmarks decryptedJson with
                        | none => (pinCatch st, w0)
                        | some loadedBookmarks =>
                            ({ st with derivedKey := some key
                                       bookmarks := loadedBookmarks
                                       isAuthenticated := true }, w0)
    | none => (pinCatch st, w0)

/-- `handleDeleteBookmark` (App.tsx): filters the collection and funnels the
result through `saveDataToLocalStorage`; with no key or salt in memory it
reports the key-unavailable error and de-authenticates. -/
def handleDeleteBookmark (bookmarkId : String) (st : AppState) (w : World) :
    AppState × World :=
  match st.derivedKey, st.storedSalt with
  | some key, some salt =>
      let updatedBookmarks := st.bookmarks.filter (fun bm => bm.id != bookmarkId)
      let r := saveDataToLocalStorage key salt updatedBookmarks
        { st with bookmarks := updatedBookmarks } w
      (r.st, r.w)
  | _, _ =>
      ({ st with pinError := some keyUnavailableMessage, isAuthenticated := false }, w)

/-- `handleExportBookmarks` (App.tsx): refuses (with an error toast, touching
nothing else) unless a key, a salt and a nonempty collection are present;
otherwise encrypts the current collection under the session key with a fresh
IV and emits the three-field export document; the stored envelope is not
read or written. -/
def handleExportBookmarks (st : AppState) (w : World) :
    AppState × World × Option EncryptedData :=
  match st.derivedKey, st.storedSalt with
  | some key, some salt =>
      if st.bookmarks.length = 0 then
        ({ st with toast := some exportRefusedToast }, w, none)
      else
        let jsonData := stringifyBookmarks st.bookmarks
        let enc := encryptData key jsonData w.rng
        let w1 : World := { w with rng := w.rng + 1 }
        let exportData : EncryptedData :=
          { salt := arrayBufferToBase64 salt
            iv := arrayBufferToBase64 enc.iv
            ciphertext := enc.ciphertext }
        ({ st with toast := some exportSuccessToast }, w1, some exportData)
  | _, _ => ({ st with toast := some exportRefusedToast }, w, none)

/-! ## Concrete sample fixtures (used by witnesses and counterexamples) -/

/-- Sample salt: the 16 bytes drawn at entropy position 0. -/
def sampleSalt : List Nat := generateSalt 0

/-- Sample IV: the 12 bytes drawn at entropy position 0. -/
def sampleIv : List Nat := generateIv 0

/-- Sample session key, derived from PIN "1234" over the sample salt. -/
def sampleKey : CryptoKey := deriveKey "1234" sampleSalt

/-- A sample bookmark. -/
def sampleBookmark : Bookmark :=
  { id := "a1", name := "Example", url := "https-example" }

/-- A sample persisted envelope: the collection `[sampleBookmark]` encrypted
under the sample key with the sample IV. -/
def sampleEnvelope : EncryptedData :=
  { salt := arrayBufferToBase64 sampleSalt
    iv := arrayBufferToBase64 sampleIv
    ciphertext := subtleEncrypt sampleKey sampleIv
      (textEncode (stringifyBookmarks [sampleBookmark])) }

/-- A locked session over the sample envelope. -/
def sampleLockedState : AppState :=
  { isAuthenticated := false, bookmarks := [], derivedKey := none
    storedSalt := some sampleSalt, pinError := none, isInitialSetup := false
    toast := none }

/-- An unlocked session holding the sample key and collection. -/
def sampleUnlockedState : AppState :=
  { isAuthenticated := true, bookmarks := [sampleBookmark]
    derivedKey := some sampleKey, storedSalt := some sampleSalt
    pinError := none, isInitialSetup := false, toast := none }

/-- An unlocked session holding the sample key but an empty collection. -/
def sampleUnlockedEmptyState : AppState :=
  { isAuthenticated := true, bookmarks := [], derivedKey := some sampleKey
    storedSalt := some sampleSalt, pinError := none, isInitialSetup := false
    toast := none }

/-- The uninitialized session (fresh start). -/
def sampleUninitState : AppState :=
  { isAuthenticated := false, bookmarks := [], derivedKey := none
    storedSalt := none, pinError := none, isInitialSetup := true, toast := none }

/-- A world whose store holds the sample envelope. -/
def sampleWorld : World :=
  { store := some (StoredText.env sampleEnvelope), rng := 1, quotaFails := false }

/-- A world whose store holds text that does not parse as an envelope. -/
def junkWorld : World :=
  { store := some (StoredText.junk "not json"), rng := 0, quotaFails := false }

/-- An empty world whose storage rejects writes (quota exceeded). -/
def quotaWorld : World :=
  { store := none, rng := 0, quotaFails := true }

/-! ## Helper lemmas -/

theorem textDecode_textEncode (s : String) : textDecode (textEncode s) = s := by
  simp [textEncode, textDecode, List.map_map, Function.comp_def]

theorem map_mod_65536_eq (b : List Nat) (h : ∀ x ∈ b, x < 256) :
    b.map (fun x => x % 65536) = b := by
  induction b with
  | nil => rfl
  | cons a l ih =>
      have ha : a < 256 := h a (by simp)
      have hl : ∀ x ∈ l, x < 256 := fun x hx => h x (by simp [hx])
      simp [ih hl]
      omega

theorem map_mod_256_eq (b : List Nat) (h : ∀ x ∈ b, x < 256) :
    b.map (fun x => x % 256) = b := by
  induction b with
  | nil => rfl
  | cons a l ih =>
      have ha : a < 256 := h a (by simp)
      have hl : ∀ x ∈ l, x < 256 := fun x hx => h x (by simp [hx])
      simp [ih hl]
      omega

theorem sextet_code_rt : ∀ s : Nat, s ≤ 64 → sextetOfB64Code (b64CodeOfSextet s) = some s := by
  decide

theorem b64DecodeSextets_encode (bs : List Nat) (h : ∀ x ∈ bs, x < 256) :
    b64DecodeSextets (b64EncodeBytes bs) = some bs := by
  induction bs using b64EncodeBytes.induct with
  | case1 => rfl
  | case2 a =>
      have ha : a < 256 := h a (by simp)
      have f1 : a / 4 < 64 := by omega
      have f2 : a % 4 * 16 < 64 := by omega
      have f3 : a % 4 * 16 % 16 = 0 := by omega
      simp [b64EncodeBytes, b64DecodeSextets, f1, f2, f3]
      omega
  | case3 a b =>
      have ha : a < 256 := h a (by simp)
      have hb : b < 256 := h b (by simp)
      have f1 : a / 4 < 64 := by omega
      have f2 : a % 4 * 16 + b / 16 < 64 := by omega
      have f3 : b % 16 * 4 < 64 := by omega
      have f4 : b % 16 * 4 % 4 = 0 := by omega
      have f5 : ¬ b % 16 * 4 = 64 := by omega
      simp [b64EncodeBytes, b64DecodeSextets, f1, f2, f3, f4, f5]
      omega
  | case4 a b c rest ih =>
      have ha : a < 256 := h a (by simp)
      have hb : b < 256 := h b (by simp)
      have hc : c < 256 := h c (by simp)
      have hrest : ∀ x ∈ rest, x < 256 := fun x hx => h x (by simp [hx])
      have ih2 := ih hrest
      have f1 : a / 4 < 64 := by omega
      have f2 : a % 4 * 16 + b / 16 < 64 := by omega
      have f3 : ¬ b % 16 * 4 + c / 64 = 64 := by omega
      have f4 : ¬ c % 64 = 64 := by omega
      have f5 : b % 16 * 4 + c / 64 < 64 := by omega
      have f6 : c % 64 < 64 := by omega
      have e1 : a / 4 * 4 + (a % 4 * 16 + b / 16) / 16 = a := by omega
      have e2 : (a % 4 * 16 + b / 16) % 16 * 16 + (b % 16 * 4 + c / 64) / 4 = b := by omega
      have e3 : (b % 16 * 4 + c / 64) % 4 * 64 + c % 64 = c := by omega
      simp [b64EncodeBytes, b64DecodeSextets, f1, f2, f3, f4, f5, f6, ih2, e1, e2, e3]

theorem b64EncodeBytes_le (bs : List Nat) (h : ∀ x ∈ bs, x < 256) :
    ∀ s ∈ b64EncodeBytes bs, s ≤ 64 := by
  induction bs using b64EncodeBytes.induct with
  | case1 => simp [b64EncodeBytes]
  | case2 a =>
      have ha : a < 256 := h a (by simp)
      intro s hs
      simp [b64EncodeBytes] at hs
      rcases hs with h1 | h1 | h1 | h1 <;> omega
  | case3 a b =>
      have ha : a < 256 := h a (by simp)
      have hb : b < 256 := h b (by simp)
      intro s hs
      simp [b64EncodeBytes] at hs
      rcases hs with h1 | h1 | h1 | h1 <;> omega
  | case4 a b c rest ih =>
      have ha : a < 256 := h a (by simp)
      have hb : b < 256 := h b (by simp)
      have hc : c < 256 := h c (by simp)
      have hrest : ∀ x ∈ rest, x < 256 := fun x hx => h x (by simp [hx])
      have ih2 := ih hrest
      intro s hs
      simp [b64EncodeBytes] at hs
      rcases hs with h1 | h1 | h1 | h1 | h1
      · omega
      · omega
      · omega
      · omega
      · exact ih2 s h1

theorem b64CodesToSextets_map (ss : List Nat) (h : ∀ s ∈ ss, s ≤ 64) :
    b64CodesToSextets (ss.map b64CodeOfSextet) = some ss := by
  induction ss with
  | nil => rfl
  | cons s ss ih =>
      have hs : s ≤ 64 := h s (by simp)
      have hss : ∀ x ∈ ss, x ≤ 64 := fun x hx => h x (by simp [hx])
      simp only [List.map_cons, b64CodesToSextets]
      rw [sextet_code_rt s hs, ih hss]

theorem base64_bytes_roundtrip (b : List Nat) (h : ∀ x ∈ b, x < 256) :
    base64ToArrayBuffer (arrayBufferToBase64 b) = some b := by
  unfold arrayBufferToBase64 base64ToArrayBuffer btoa atob
  rw [map_mod_65536_eq b h]
  rw [b64CodesToSextets_map _ (b64EncodeBytes_le b h)]
  show (b64DecodeSextets (b64EncodeBytes b)).map (fun bin => bin.map (fun c => c % 256)) =
    some b
  rw [b64DecodeSextets_encode b h]
  show some (b.map (fun c => c % 256)) = some b
  rw [map_mod_256_eq b h]

/-! ## Claim theorems -/

/-- C1: for every key `k` and plaintext `m`, decrypting the output of
`encryptData` with the same key returns `m`. -/
theorem encrypt_decrypt_roundtrip (key : CryptoKey) (m : String) (rng : Nat) :
    decryptData key (encryptData key m rng).iv (encryptData key m rng).ciphertext =
      Except.ok m := by
  simp [encryptData, decryptData, subtleEncrypt, subtleDecrypt, Except.map,
    textDecode_textEncode]

/-- C2: decrypting a ciphertext produced under one derived key with a distinct
derived key (for example, one derived from a different PIN over the same salt)
fails with the authentication error; it never returns a plaintext. -/
theorem decrypt_wrong_key_fails (pin1 pin2 : String) (salt : List Nat)
    (m : String) (rng : Nat)
    (hne : deriveKey pin1 salt ≠ deriveKey pin2 salt) :
    decryptData (deriveKey pin2 salt)
      (encryptData (deriveKey pin1 salt) m rng).iv
      (encryptData (deriveKey pin1 salt) m rng).ciphertext =
      Except.error CryptoError.AuthenticationError := by
  simp [encryptData, decryptData, subtleEncrypt, subtleDecrypt, Except.map]
  rw [if_neg hne]

theorem decrypt_wrong_key_fails_witness :
    decryptData (deriveKey "5678" (generateSalt 0))
      (encryptData (deriveKey "1234" (generateSalt 0)) "secret" 1).iv
      (encryptData (deriveKey "1234" (generateSalt 0)) "secret" 1).ciphertext =
      Except.error CryptoError.AuthenticationError :=
  decrypt_wrong_key_fails "1234" "5678" (generateSalt 0) "secret" 1 (by decide)

/-- C3: `deriveKey` invokes the password-based derivation with exactly 100000
iterations of the 256-bit hash SHA-256 producing a 256-bit AES key, and is
deterministic in `(pin, salt)`. -/
theorem deriveKey_pbkdf2_spec :
    (∀ pin salt pin2 salt2, pin = pin2 → salt = salt2 →
      deriveKey pin salt = deriveKey pin2 salt2) ∧
    (∀ pin salt, deriveKey pin salt =
      { material := pbkdf2 (textEncode pin) salt 100000 "SHA-256" 256
        algorithm := "AES-GCM"
        lengthBits := 256 }) ∧
    PBKDF2_ITERATIONS = 100000 ∧ HASH_ALGORITHM = "SHA-256" ∧
    KEY_LENGTH_BITS = 256 := by
  refine ⟨?_, ?_, rfl, rfl, rfl⟩
  · intro pin salt pin2 salt2 h1 h2
    rw [h1, h2]
  · intro pin salt
    rfl

theorem deriveKey_pbkdf2_spec_witness :
    deriveKey "1234" (generateSalt 0) = deriveKey "1234" (generateSalt 0) :=
  deriveKey_pbkdf2_spec.1 "1234" (generateSalt 0) "1234" (generateSalt 0) rfl rfl

/-- C9: the envelope codec round-trips: decoding an encoded byte sequence
returns it unchanged, and every text in the image of the encoder decodes and
re-encodes to itself (its normalized form). -/
theorem base64_codec_roundtrip :
    (∀ b : List Nat, (∀ x ∈ b, x < 256) →
      base64ToArrayBuffer (arrayBufferToBase64 b) = some b) ∧
    (∀ t b : List Nat, (∀ x ∈ b, x < 256) → arrayBufferToBase64 b = t →
      ∃ b2, base64ToArrayBuffer t = some b2 ∧ arrayBufferToBase64 b2 = t) := by
  refine ⟨base64_bytes_roundtrip, ?_⟩
  intro t b hb ht
  refine ⟨b, ?_, ht⟩
  rw [← ht]
  exact base64_bytes_roundtrip b hb

theorem base64_codec_roundtrip_witness :
    base64ToArrayBuffer (arrayBufferToBase64 [0, 255, 7]) = some [0, 255, 7] ∧
    ∃ b2, base64ToArrayBuffer (arrayBufferToBase64 [0, 255, 7]) = some b2 ∧
      arrayBufferToBase64 b2 = arrayBufferToBase64 [0, 255, 7] :=
  ⟨base64_codec_roundtrip.1 [0, 255, 7] (by decide),
   base64_codec_roundtrip.2 (arrayBufferToBase64 [0, 255, 7]) [0, 255, 7] (by decide) rfl⟩

/-- C4: submitting a PIN whose derived key fails authenticated decryption of
the stored envelope leaves the vault locked with the invalid-PIN report: no
key or plaintext collection is retained and the persisted envelope and world
are unchanged. -/
theorem unlock_wrong_pin_stays_locked (pin : String) (st : AppState) (w : World)
    (salt ivb : List Nat) (e : EncryptedData) (err : CryptoError)
    (hsetup : st.isInitialSetup = false)
    (hsalt : st.storedSalt = some salt)
    (hstore : w.store = some (StoredText.env e))
    (hiv : base64ToArrayBuffer e.iv = some ivb)
    (hfail : decryptData (deriveKey pin salt) ivb e.ciphertext = Except.error err)
    (hbm : st.bookmarks = []) :
    handlePinSubmit pin st w =
      ({ st with pinError := some invalidPinMessage
                 isAuthenticated := false
                 derivedKey := none }, w) ∧
    (handlePinSubmit pin st w).1.bookmarks = [] ∧
    (handlePinSubmit pin st w).2.store = some (StoredText.env e) := by
  have hmain : handlePinSubmit pin st w =
      ({ st with pinError := some invalidPinMessage
                 isAuthenticated := false
                 derivedKey := none }, w) := by
    simp [handlePinSubmit, hsetup, hsalt, hstore, hiv, hfail, parseStoredText, pinCatch]
  refine ⟨hmain, ?_, ?_⟩
  · rw [hmain]
    exact hbm
  · rw [hmain]
    exact hstore

theorem unlock_wrong_pin_stays_locked_witness :
    handlePinSubmit "9999" sampleLockedState sampleWorld =
      ({ sampleLockedState with pinError := some invalidPinMessage
                                isAuthenticated := false
                                derivedKey := none }, sampleWorld) ∧
    (handlePinSubmit "9999" sampleLockedState sampleWorld).1.bookmarks = [] ∧
    (handlePinSubmit "9999" sampleLockedState sampleWorld).2.store =
      some (StoredText.env sampleEnvelope) :=
  unlock_wrong_pin_stays_locked "9999" sampleLockedState sampleWorld sampleSalt
    sampleIv sampleEnvelope CryptoError.AuthenticationError rfl rfl rfl
    (by decide) rfl rfl

/-- C5: a mutation funnelled through `saveDataToLocalStorage` while unlocked
overwrites the entire persisted envelope in one write: the IV is freshly drawn
for that encryption, the ciphertext is the new encryption of the new
collection, and the salt field is exactly the one the envelope held before;
nothing else changes. -/
theorem mutate_single_write_fresh_nonce_same_salt (key : CryptoKey)
    (salt : List Nat) (data : List Bookmark) (st : AppState) (w : World)
    (e0 : EncryptedData)
    (_hstore : w.store = some (StoredText.env e0))
    (hsalt : e0.salt = arrayBufferToBase64 salt)
    (hquota : w.quotaFails = false) :
    (saveDataToLocalStorage key salt data st w).ok = true ∧
    (saveDataToLocalStorage key salt data st w).w.store =
      some (StoredText.env
        { salt := e0.salt
          iv := arrayBufferToBase64 (generateIv w.rng)
          ciphertext := subtleEncrypt key (generateIv w.rng)
            (textEncode (stringifyBookmarks data)) }) ∧
    (saveDataToLocalStorage key salt data st w).w.rng = w.rng + 1 ∧
    (saveDataToLocalStorage key salt data st w).st = st := by
  simp [saveDataToLocalStorage, encryptData, hquota, hsalt]

theorem mutate_single_write_fresh_nonce_same_salt_witness :
    (saveDataToLocalStorage sampleKey sampleSalt [] sampleUnlockedState sampleWorld).ok = true ∧
    (saveDataToLocalStorage sampleKey sampleSalt [] sampleUnlockedState sampleWorld).w.store =
      some (StoredText.env
        { salt := sampleEnvelope.salt
          iv := arrayBufferToBase64 (generateIv sampleWorld.rng)
          ciphertext := subtleEncrypt sampleKey (generateIv sampleWorld.rng)
            (textEncode (stringifyBookmarks [])) }) ∧
    (saveDataToLocalStorage sampleKey sampleSalt [] sampleUnlockedState sampleWorld).w.rng =
      sampleWorld.rng + 1 ∧
    (saveDataToLocalStorage sampleKey sampleSalt [] sampleUnlockedState sampleWorld).st =
      sampleUnlockedState :=
  mutate_single_write_fresh_nonce_same_salt sampleKey sampleSalt []
    sampleUnlockedState sampleWorld sampleEnvelope rfl rfl rfl

/-- C6 counterexample: on unparseable stored text, `loadInitialData` removes
the stored data and re-enters initial setup — the stored data is discarded and
the application re-initialized, with no terminal Corrupted state, contrary to
the claim. -/
theorem corrupted_store_not_preserved_counterexample :
    junkWorld.store = some (StoredText.junk "not json") ∧
    (loadInitialData sampleLockedState junkWorld).2.store = none ∧
    (loadInitialData sampleLockedState junkWorld).1.isInitialSetup = true :=
  ⟨rfl, rfl, rfl⟩

/-- C6 (amended): when the stored envelope text cannot be parsed,
`loadInitialData` reports the corruption notice, removes the stored envelope,
and transitions to initial setup (Uninitialized); the stored data is discarded
rather than preserved in a terminal Corrupted state. -/
theorem corrupted_store_resets_to_initial_setup (st : AppState) (w : World)
    (s : String) (hstore : w.store = some (StoredText.junk s)) :
    loadInitialData st w =
      ({ st with isInitialSetup := true, toast := some corruptedDataToast },
       { w with store := none }) := by
  simp [loadInitialData, hstore, parseStoredText]

theorem corrupted_store_resets_to_initial_setup_witness :
    loadInitialData sampleLockedState junkWorld =
      ({ sampleLockedState with isInitialSetup := true
                                toast := some corruptedDataToast },
       { junkWorld with store := none }) :=
  corrupted_store_resets_to_initial_setup sampleLockedState junkWorld "not json" rfl

/-- C7 counterexample: when persisting the first envelope fails, the salt
session variable does not return to its pre-call value — it retains the newly
generated salt, contrary to the claim. -/
theorem setup_failure_salt_retained_counterexample :
    sampleUninitState.storedSalt = none ∧
    (handlePinSubmit "1234" sampleUninitState quotaWorld).1.storedSalt ≠ none ∧
    (handlePinSubmit "1234" sampleUninitState quotaWorld).2.store = none := by
  refine ⟨rfl, ?_, rfl⟩
  decide

/-- C7 (amended): if persisting fails during initial setup, the session
reports the setup error and remains Uninitialized with no envelope persisted
and no key retained; however the salt session variable now holds the freshly
generated salt (and the collection is the empty one), rather than the
pre-call values. -/
theorem setup_persist_failure_stays_uninitialized (pin : String) (st : AppState)
    (w : World) (hsetup : st.isInitialSetup = true) (hquota : w.quotaFails = true) :
    (handlePinSubmit pin st w).1.isAuthenticated = false ∧
    (handlePinSubmit pin st w).1.derivedKey = none ∧
    (handlePinSubmit pin st w).1.isInitialSetup = true ∧
    (handlePinSubmit pin st w).1.pinError = some setupFailedMessage ∧
    (handlePinSubmit pin st w).2.store = w.store ∧
    (handlePinSubmit pin st w).1.storedSalt = some (generateSalt w.rng) ∧
    (handlePinSubmit pin st w).1.bookmarks = [] := by
  simp [handlePinSubmit, hsetup, saveDataToLocalStorage, encryptData, hquota]

theorem setup_persist_failure_stays_uninitialized_witness :
    (handlePinSubmit "1234" sampleUninitState quotaWorld).1.isAuthenticated = false ∧
    (handlePinSubmit "1234" sampleUninitState quotaWorld).1.derivedKey = none ∧
    (handlePinSubmit "1234" sampleUninitState quotaWorld).1.isInitialSetup = true ∧
    (handlePinSubmit "1234" sampleUninitState quotaWorld).1.pinError =
      some setupFailedMessage ∧
    (handlePinSubmit "1234" sampleUninitState quotaWorld).2.store = quotaWorld.store ∧
    (handlePinSubmit "1234" sampleUninitState quotaWorld).1.storedSalt =
      some (generateSalt quotaWorld.rng) ∧
    (handlePinSubmit "1234" sampleUninitState quotaWorld).1.bookmarks = [] :=
  setup_persist_failure_stays_uninitialized "1234" sampleUninitState quotaWorld rfl rfl

/-- C8 counterexample: exporting while unlocked does not dump the persisted
envelope — at a state whose store holds `sampleEnvelope` (same salt, same
collection), the export output is a different envelope, because a fresh IV is
drawn and a new ciphertext produced. -/
theorem export_differs_from_stored_counterexample :
    sampleWorld.store = some (StoredText.env sampleEnvelope) ∧
    ((handleExportBookmarks sampleUnlockedState sampleWorld).2.2).isSome = true ∧
    (handleExportBookmarks sampleUnlockedState sampleWorld).2.2 ≠
      some sampleEnvelope := by
  refine ⟨rfl, rfl, ?_⟩
  decide

/-- C8 (amended): while unlocked, export produces an envelope of the identical
three-field shape whose salt equals the salt field of the persisted envelope,
but with a freshly generated IV and a new ciphertext encrypting the current
in-memory collection; the persisted envelope itself is neither read nor
required to match field-for-field. -/
theorem export_reencrypts_current_collection (st : AppState) (w : World)
    (key : CryptoKey) (salt : List Nat) (e0 : EncryptedData)
    (hkey : st.derivedKey = some key)
    (hsalt : st.storedSalt = some salt)
    (hbm : st.bookmarks ≠ [])
    (_hstore : w.store = some (StoredText.env e0))
    (hes : e0.salt = arrayBufferToBase64 salt) :
    handleExportBookmarks st w =
      ({ st with toast := some exportSuccessToast },
       { w with rng := w.rng + 1 },
       some { salt := e0.salt
              iv := arrayBufferToBase64 (generateIv w.rng)
              ciphertext := subtleEncrypt key (generateIv w.rng)
                (textEncode (stringifyBookmarks st.bookmarks)) }) ∧
    (handleExportBookmarks st w).2.1.store = w.store := by
  have hlen : ¬ st.bookmarks.length = 0 := by
    simpa [List.length_eq_zero] using hbm
  have hmain : handleExportBookmarks st w =
      ({ st with toast := some exportSuccessToast },
       { w with rng := w.rng + 1 },
       some { salt := e0.salt
              iv := arrayBufferToBase64 (generateIv w.rng)
              ciphertext := subtleEncrypt key (generateIv w.rng)
                (textEncode (stringifyBookmarks st.bookmarks)) }) := by
    simp [handleExportBookmarks, hkey, hsalt, hlen, encryptData, hes]
  refine ⟨hmain, ?_⟩
  rw [hmain]

theorem export_reencrypts_current_collection_witness :
    handleExportBookmarks sampleUnlockedState sampleWorld =
      ({ sampleUnlockedState with toast := some exportSuccessToast },
       { sampleWorld with rng := sampleWorld.rng + 1 },
       some { salt := sampleEnvelope.salt
              iv := arrayBufferToBase64 (generateIv sampleWorld.rng)
              ciphertext := subtleEncrypt sampleKey (generateIv sampleWorld.rng)
                (textEncode (stringifyBookmarks sampleUnlockedState.bookmarks)) }) ∧
    (handleExportBookmarks sampleUnlockedState sampleWorld).2.1.store =
      sampleWorld.store :=
  export_reencrypts_current_collection sampleUnlockedState sampleWorld sampleKey
    sampleSalt sampleEnvelope rfl rfl (by decide) rfl rfl

/-- C10: with an empty in-memory collection the export operation refuses: it
reports the error toast and returns without encrypting or writing anything,
even in an unlocked session holding a valid key and salt. -/
theorem export_empty_collection_refused (st : AppState) (w : World)
    (hbm : st.bookmarks = []) :
    handleExportBookmarks st w =
      ({ st with toast := some exportRefusedToast }, w, none) := by
  cases hk : st.derivedKey with
  | none => simp [handleExportBookmarks, hk]
  | some key =>
      cases hs : st.storedSalt with
      | none => simp [handleExportBookmarks, hk, hs]
      | some salt => simp [handleExportBookmarks, hk, hs, hbm]

theorem export_empty_collection_refused_witness :
    handleExportBookmarks sampleUnlockedEmptyState sampleWorld =
      ({ sampleUnlockedEmptyState with toast := some exportRefusedToast },
       sampleWorld, none) :=
  export_empty_collection_refused sampleUnlockedEmptyState sampleWorld rfl

end Vaultify
